import Mathlib

/-!
# Verification model of the diabetes risk-assessment form controller

Shallow embedding of `src/src/pages/Index.tsx`: the eight-field form state,
the JavaScript `Number(string)` coercion used by validation and prediction,
the `validateForm` / `handlePredict` logic, the `setTimeout` completion
callback, and the field-edit handlers.

JavaScript numbers that arise here are exact decimal values (strings typed
into the form, slider positions); the embedding represents a finite value
exactly as a scaled decimal `m / 10^k` (`Dec10`) rather than as an IEEE-754
double, which is faithful for every comparison the program performs on such
values.
-/

namespace DiabetiCheck

/-- A finite JavaScript number value, represented exactly as `m / 10^k`. -/
structure Dec10 where
  m : Int
  k : Nat
deriving DecidableEq, Repr

/-- Rational denotation of a `Dec10` value. -/
def Dec10.toRat (v : Dec10) : ℚ := (v.m : ℚ) / 10 ^ v.k

/-- Result of JavaScript `Number(string)`: NaN, a signed infinity, or a
finite value. -/
inductive JSNum where
  | nan : JSNum
  | inf (neg : Bool) : JSNum
  | fin (v : Dec10) : JSNum
deriving DecidableEq, Repr

/-- The whitespace characters trimmed by the JavaScript string-to-number
coercion (ECMAScript `StringNumericLiteral`): space, tab, line feed,
vertical tab, form feed, carriage return, no-break space, BOM, and the
Unicode line/paragraph separators. -/
def isJsWhitespace (c : Char) : Bool :=
  c = ' ' || c = '\t' || c = '\n' || c = '\x0b' || c = '\x0c' || c = '\r' ||
  c = '\u00A0' || c = '\uFEFF' || c = '\u2028' || c = '\u2029'

/-- Trim leading and trailing JavaScript whitespace. -/
def jsTrim (cs : List Char) : List Char :=
  ((cs.dropWhile isJsWhitespace).reverse.dropWhile isJsWhitespace).reverse

/-- Value of a list of decimal digit characters. -/
def digitsToNat (ds : List Char) : Nat :=
  ds.foldl (fun a c => 10 * a + (c.toNat - 48)) 0

/-- Value of a hexadecimal / octal / binary digit character, if it is one. -/
def radixDigitVal (c : Char) : Option Nat :=
  if c.isDigit then some (c.toNat - 48)
  else if 'a' ≤ c && c ≤ 'f' then some (c.toNat - 97 + 10)
  else if 'A' ≤ c && c ≤ 'F' then some (c.toNat - 65 + 10)
  else none

/-- Parse a non-empty digit string in base `b` (used for the `0x`, `0o`,
`0b` forms of the JavaScript numeric-string grammar). -/
def parseRadix (b : Nat) (cs : List Char) : Option Nat :=
  if cs.isEmpty then none
  else
    cs.foldl
      (fun acc c =>
        acc.bind fun a =>
          (radixDigitVal c).bind fun d =>
            if d < b then some (b * a + d) else none)
      (some 0)

/-- Assemble a finite value from its unsigned digit value, the number of
fractional digits, and the decimal exponent. -/
def Dec10.ofParts (neg : Bool) (digits : Nat) (fracLen : Nat) (exp : Int) :
    Dec10 :=
  let e : Int := exp - fracLen
  let sm : Int := if neg then -(digits : Int) else (digits : Int)
  if 0 ≤ e then ⟨sm * 10 ^ e.toNat, 0⟩ else ⟨sm, (-e).toNat⟩

/-- Parse the unsigned decimal part of a JavaScript numeric string:
`digits [. digits] [e|E [+|-] digits]`, with at least one digit present,
consuming the whole input.  Returns the digit value, the count of
fractional digits, and the exponent. -/
def parseDecimalCore (cs : List Char) : Option (Nat × Nat × Int) :=
  let (ip, r1) := cs.span Char.isDigit
  let (fp, r2) :=
    match r1 with
    | '.' :: t => t.span Char.isDigit
    | _ => ([], r1)
  if ip.isEmpty && fp.isEmpty then none
  else
    let digits := digitsToNat (ip ++ fp)
    match r2 with
    | [] => some (digits, fp.length, 0)
    | c :: t =>
      if c = 'e' || c = 'E' then
        let (esign, t2) :=
          match t with
          | '+' :: u => ((1 : Int), u)
          | '-' :: u => ((-1 : Int), u)
          | _ => ((1 : Int), t)
        let (ed, t3) := t2.span Char.isDigit
        if ed.isEmpty || !t3.isEmpty then none
        else some (digits, fp.length, esign * (digitsToNat ed : Int))
      else none

/-- Parse an optionally signed decimal literal or `Infinity`. -/
def parseSignedDecimal (cs : List Char) : JSNum :=
  let (neg, rest) :=
    match cs with
    | '+' :: t => (false, t)
    | '-' :: t => (true, t)
    | _ => (false, cs)
  if rest = "Infinity".toList then JSNum.inf neg
  else
    match parseDecimalCore rest with
    | some (digits, fracLen, exp) => JSNum.fin (Dec10.ofParts neg digits fracLen exp)
    | none => JSNum.nan

/-- Model of the JavaScript `Number(string)` coercion: trim whitespace,
empty string yields `0`, `0x`/`0o`/`0b` radix forms (unsigned only),
otherwise an optionally signed decimal literal or `Infinity`; anything
else is NaN. -/
def jsStrToNumber (s : String) : JSNum :=
  match jsTrim s.toList with
  | [] => JSNum.fin ⟨0, 0⟩
  | '0' :: c :: rest =>
    if c = 'x' || c = 'X' then
      match parseRadix 16 rest with
      | some n => JSNum.fin ⟨n, 0⟩
      | none => JSNum.nan
    else if c = 'o' || c = 'O' then
      match parseRadix 8 rest with
      | some n => JSNum.fin ⟨n, 0⟩
      | none => JSNum.nan
    else if c = 'b' || c = 'B' then
      match parseRadix 2 rest with
      | some n => JSNum.fin ⟨n, 0⟩
      | none => JSNum.nan
    else parseSignedDecimal ('0' :: c :: rest)
  | cs => parseSignedDecimal cs

/-- JavaScript comparison `x > c` for a parsed value `x` and an integer
literal `c` (as in `glucose > 140`): false for NaN, true for `+Infinity`,
false for `-Infinity`, and the exact numeric comparison for finite values. -/
def JSNum.gtInt (x : JSNum) (c : Int) : Bool :=
  match x with
  | JSNum.nan => false
  | JSNum.inf neg => !neg
  | JSNum.fin v => decide (c * 10 ^ v.k < v.m)

/-- The eight form fields (the keys of the `FormData` interface). -/
inductive Field where
  | pregnancies
  | glucose
  | bloodPressure
  | skinThickness
  | insulin
  | bmi
  | diabetesPedigree
  | age
deriving DecidableEq, Repr

/-- The `FormData` interface: each field is stored as a string. -/
structure FormData where
  pregnancies : String
  glucose : String
  bloodPressure : String
  skinThickness : String
  insulin : String
  bmi : String
  diabetesPedigree : String
  age : String
deriving DecidableEq, Repr

/-- `formData[field]`. -/
def getField (fd : FormData) : Field → String
  | Field.pregnancies => fd.pregnancies
  | Field.glucose => fd.glucose
  | Field.bloodPressure => fd.bloodPressure
  | Field.skinThickness => fd.skinThickness
  | Field.insulin => fd.insulin
  | Field.bmi => fd.bmi
  | Field.diabetesPedigree => fd.diabetesPedigree
  | Field.age => fd.age

/-- `{ ...prev, [field]: value }`. -/
def setField (fd : FormData) (f : Field) (v : String) : FormData :=
  match f with
  | Field.pregnancies => { fd with pregnancies := v }
  | Field.glucose => { fd with glucose := v }
  | Field.bloodPressure => { fd with bloodPressure := v }
  | Field.skinThickness => { fd with skinThickness := v }
  | Field.insulin => { fd with insulin := v }
  | Field.bmi => { fd with bmi := v }
  | Field.diabetesPedigree => { fd with diabetesPedigree := v }
  | Field.age => { fd with age := v }

/-- The string key of each field, as written in the source. -/
def fieldKey : Field → String
  | Field.pregnancies => "pregnancies"
  | Field.glucose => "glucose"
  | Field.bloodPressure => "bloodPressure"
  | Field.skinThickness => "skinThickness"
  | Field.insulin => "insulin"
  | Field.bmi => "bmi"
  | Field.diabetesPedigree => "diabetesPedigree"
  | Field.age => "age"

/-- The `requiredFields` array of `validateForm`, in source order. -/
def requiredFields : List Field :=
  [Field.pregnancies, Field.glucose, Field.bloodPressure,
   Field.skinThickness, Field.insulin, Field.bmi,
   Field.diabetesPedigree, Field.age]

/-- `field.replace(/([A-Z])/g, " $1").toLowerCase()`: insert a space before
each ASCII uppercase letter, then lowercase the whole string. -/
def deCamelCase (s : String) : String :=
  String.mk
    (((s.toList.flatMap fun c => if c.isUpper then [' ', c] else [c]).map
      Char.toLower))

/-- One call to the `toast` notification collaborator. -/
structure Toast where
  title : String
  description : String
  variant : String
deriving DecidableEq, Repr

/-- The toast fired by `validateForm` for a failing field. -/
def validationToast (f : Field) : Toast :=
  { title := "Validation Error",
    description :=
      "Please enter a valid number for " ++ deCamelCase (fieldKey f),
    variant := "destructive" }

/-- `!formData[field] || isNaN(Number(formData[field]))`: the per-field
check of `validateForm` (an empty string is the only falsy string). -/
def fieldInvalid (fd : FormData) (f : Field) : Bool :=
  getField fd f = "" || jsStrToNumber (getField fd f) = JSNum.nan

/-- The first field of `requiredFields` failing the check, if any: the
`for` loop of `validateForm` returns at the first failure. -/
def firstInvalidField (fd : FormData) : Option Field :=
  requiredFields.find? (fieldInvalid fd)

/-- `validateForm`: `none` means the function returned `true`; `some t`
means it returned `false` after firing toast `t` for the first failing
field. -/
def validateForm (fd : FormData) : Option Toast :=
  (firstInvalidField fd).map validationToast

/-- The binary prediction label. -/
inductive Pred where
  | positive
  | negative
deriving DecidableEq, Repr

/-- The `result` state: `{ prediction, message }`. -/
structure AssessmentResult where
  prediction : Option Pred
  message : String
deriving DecidableEq, Repr

/-- The advisory message of the positive branch. -/
def positiveMessage : String :=
  "Based on your inputs, there may be an increased risk. Please consult a healthcare professional."

/-- The reassuring message of the negative branch. -/
def negativeMessage : String :=
  "Based on your inputs, your risk appears to be lower. Continue maintaining a healthy lifestyle!"

/-- The body of the `setTimeout` callback in `handlePredict`: parse
`glucose` and `bmi` and apply the two-threshold rule. -/
def computeResult (fd : FormData) : AssessmentResult :=
  if (jsStrToNumber fd.glucose).gtInt 140 || (jsStrToNumber fd.bmi).gtInt 30 then
    { prediction := some Pred.positive, message := positiveMessage }
  else
    { prediction := some Pred.negative, message := negativeMessage }

/-- The `{min, max, step}` slider metadata of each field (`fieldRanges`). -/
structure FieldRange where
  min : ℚ
  max : ℚ
  step : ℚ
deriving DecidableEq, Repr

/-- The `fieldRanges` record of the source. -/
def fieldRanges : Field → FieldRange
  | Field.pregnancies => ⟨0, 20, 1⟩
  | Field.glucose => ⟨0, 300, 1⟩
  | Field.bloodPressure => ⟨0, 200, 1⟩
  | Field.skinThickness => ⟨0, 100, 1⟩
  | Field.insulin => ⟨0, 500, 1⟩
  | Field.bmi => ⟨10, 60, 1/10⟩
  | Field.diabetesPedigree => ⟨0, 5/2, 1/1000⟩
  | Field.age => ⟨1, 120, 1⟩

/-- The delay passed to `setTimeout`, in milliseconds. -/
def simulatedDelayMs : Nat := 1500

/-- The controller's state: the three `useState` cells, plus the queue of
outstanding `setTimeout` callbacks (each records its delay and the
`formData` value captured by the closure at submission time). -/
structure ControllerState where
  formData : FormData
  result : AssessmentResult
  isSubmitting : Bool
  pending : List (Nat × FormData)
deriving DecidableEq, Repr

/-- The initial state: all fields empty, no result, not submitting. -/
def initialState : ControllerState :=
  { formData := ⟨"", "", "", "", "", "", "", ""⟩,
    result := { prediction := none, message := "" },
    isSubmitting := false,
    pending := [] }

/-- `handleInputChange`: overwrite one field's string. -/
def handleInputChange (s : ControllerState) (f : Field) (v : String) :
    ControllerState :=
  { s with formData := setField s.formData f v }

/-- Decimal digits of `n`, most significant first (fuel-based). -/
def natDigitsAux : Nat → Nat → List Char → List Char
  | 0, _, acc => acc
  | fuel + 1, n, acc =>
    let d := Char.ofNat (48 + n % 10)
    if n < 10 then d :: acc else natDigitsAux fuel (n / 10) (d :: acc)

/-- Decimal rendering of a natural number. -/
def natDecimalString (n : Nat) : String :=
  String.mk (natDigitsAux (n + 1) n [])

/-- Exactly `k` decimal digits of `n`, with leading zeros. -/
def padDigits : Nat → Nat → List Char
  | 0, _ => []
  | k + 1, n => padDigits k (n / 10) ++ [Char.ofNat (48 + n % 10)]

/-- Drop trailing `0` characters. -/
def stripTrailingZeros (cs : List Char) : List Char :=
  (cs.reverse.dropWhile (fun c => c = '0')).reverse

/-- `value[0].toString()` for a finite slider value: JavaScript decimal
rendering of `m / 10^k` (sign, integer part, fractional digits with
trailing zeros removed). -/
def jsNumToString (v : Dec10) : String :=
  let a := v.m.natAbs
  let den := 10 ^ v.k
  let ip := a / den
  let fr := a % den
  let sign := if v.m < 0 then "-" else ""
  if fr = 0 then sign ++ natDecimalString ip
  else
    sign ++ natDecimalString ip ++ "." ++
      String.mk (stripTrailingZeros (padDigits v.k fr))

/-- `handleSliderChange`: overwrite one field with the stringified slider
value (`value[0].toString()`). -/
def handleSliderChange (s : ControllerState) (f : Field) (n : Dec10) :
    ControllerState :=
  { s with formData := setField s.formData f (jsNumToString n) }

/-- `handlePredict`: validate; on failure return the state unchanged
together with the fired toast; on success set `isSubmitting`, clear the
result, and schedule the computation after `simulatedDelayMs` on the
captured form data. -/
def handlePredict (s : ControllerState) : ControllerState × Option Toast :=
  match firstInvalidField s.formData with
  | some f => (s, some (validationToast f))
  | none =>
    ({ s with
        isSubmitting := true,
        result := { prediction := none, message := "" },
        pending := s.pending ++ [(simulatedDelayMs, s.formData)] },
      none)

/-- Delivery of the oldest outstanding `setTimeout` callback: set the
result from the captured form data and re-enable submission. -/
def fireTimer (s : ControllerState) : ControllerState :=
  match s.pending with
  | [] => s
  | (_, fd) :: rest =>
    { s with
        result := computeResult fd,
        isSubmitting := false,
        pending := rest }

/-- The user-level submit action: the button's `onClick` is `handlePredict`
but the button carries `disabled={isSubmitting}`, so no click is delivered
while a submission is pending. -/
def submit (s : ControllerState) : ControllerState × Option Toast :=
  if s.isSubmitting then (s, none) else handlePredict s

/-- Model of JavaScript `Number.isFinite` on a parsed value. -/
def JSNum.isFinite : JSNum → Bool
  | JSNum.fin _ => true
  | _ => false

/-! ## Concrete states used by the witnesses -/

/-- A controller state holding the given form data, otherwise initial. -/
def formState (fd : FormData) : ControllerState :=
  { initialState with formData := fd }

/-- Boundary submission: glucose exactly 140, bmi 20. -/
def fdBoundary : FormData := ⟨"1", "140", "1", "1", "1", "20", "1", "1"⟩

/-- Every field numeric. -/
def fdAllOnes : FormData := ⟨"1", "1", "1", "1", "1", "1", "1", "1"⟩

/-- Every field numeric except a non-finite `age`. -/
def fdInfinity : FormData := ⟨"1", "1", "1", "1", "1", "1", "1", "Infinity"⟩

/-- Glucose outside its slider range `[0, 300]`. -/
def fdGlucoseOut : FormData := ⟨"1", "1000", "1", "1", "1", "1", "1", "1"⟩

/-- A non-numeric glucose entry. -/
def fdBadGlucose : FormData := ⟨"1", "abc", "1", "1", "1", "1", "1", "1"⟩

/-- An empty glucose entry. -/
def fdEmptyGlucose : FormData := ⟨"1", "", "1", "1", "1", "1", "1", "1"⟩

/-- Valid submission, glucose 150 / bmi 25. -/
def fdA : FormData := ⟨"1", "150", "1", "1", "1", "25", "1", "1"⟩

/-- A state captured mid-submission: submitting, one outstanding timer. -/
def pendingState : ControllerState :=
  { formData := fdA,
    result := { prediction := none, message := "" },
    isSubmitting := true,
    pending := [(simulatedDelayMs, fdA)] }

/-- Same glucose and bmi strings as `fdA`, all six other fields different. -/
def fdB : FormData := ⟨"7", "150", "90", "20", "80", "25", "0.5", "44"⟩

/-! ## Helper lemmas -/

/-- Comparing an integer against `m / 10^k` is the cross-multiplied integer
comparison. -/
theorem Dec10.intCast_lt_toRat (c : Int) (v : Dec10) :
    (c : ℚ) < v.toRat ↔ c * 10 ^ v.k < v.m := by
  unfold Dec10.toRat
  rw [lt_div_iff₀ (by positivity : (0 : ℚ) < 10 ^ v.k)]
  constructor
  · intro h; exact_mod_cast h
  · intro h; exact_mod_cast h

/-- `gtInt` on a finite value is the exact rational comparison. -/
theorem JSNum.gtInt_fin (v : Dec10) (c : Int) :
    ((JSNum.fin v).gtInt c = true) ↔ (c : ℚ) < v.toRat := by
  simp [JSNum.gtInt, Dec10.intCast_lt_toRat]

/-- `List.find?` returns the first element satisfying the predicate. -/
theorem find?_eq_some_split {α : Type} (p : α → Bool) :
    ∀ (l : List α) (a : α), l.find? p = some a →
      p a = true ∧ ∃ l₁ l₂, l = l₁ ++ a :: l₂ ∧ ∀ x ∈ l₁, p x = false := by
  intro l
  induction l with
  | nil => intro a h; simp [List.find?] at h
  | cons x xs ih =>
    intro a h
    by_cases hx : p x = true
    · rw [List.find?_cons_of_pos _ hx] at h
      cases h
      exact ⟨hx, [], xs, rfl, by simp⟩
    · rw [List.find?_cons_of_neg _ (by simpa using hx)] at h
      obtain ⟨hpa, l₁, l₂, heq, hall⟩ := ih a h
      refine ⟨hpa, x :: l₁, l₂, by rw [heq]; rfl, ?_⟩
      intro y hy
      rcases List.mem_cons.mp hy with h1 | h2
      · subst h1; simpa using hx
      · exact hall y h2

/-- A field passes the `validateForm` check iff it is non-empty and parses
to a non-NaN value. -/
theorem fieldInvalid_eq_false (fd : FormData) (f : Field) :
    fieldInvalid fd f = false ↔
      getField fd f ≠ "" ∧ jsStrToNumber (getField fd f) ≠ JSNum.nan := by
  simp [fieldInvalid]

/-- Validation succeeds iff every field is non-empty and parses non-NaN. -/
theorem firstInvalidField_eq_none (fd : FormData) :
    firstInvalidField fd = none ↔
      ∀ f ∈ requiredFields,
        getField fd f ≠ "" ∧ jsStrToNumber (getField fd f) ≠ JSNum.nan := by
  unfold firstInvalidField
  rw [List.find?_eq_none]
  constructor
  · intro h f hf
    exact (fieldInvalid_eq_false fd f).mp (by simpa using h f hf)
  · intro h f hf
    simpa using (fieldInvalid_eq_false fd f).mpr (h f hf)

/-- On validation success `handlePredict` enters the submitting state. -/
theorem handlePredict_of_valid (s : ControllerState)
    (hval : firstInvalidField s.formData = none) :
    handlePredict s =
      ({ s with
          isSubmitting := true,
          result := { prediction := none, message := "" },
          pending := s.pending ++ [(simulatedDelayMs, s.formData)] },
        none) := by
  unfold handlePredict
  rw [hval]

/-- On validation failure `handlePredict` leaves the state untouched and
fires the toast of the first failing field. -/
theorem handlePredict_of_invalid (s : ControllerState) (f : Field)
    (hval : firstInvalidField s.formData = some f) :
    handlePredict s = (s, some (validationToast f)) := by
  unfold handlePredict
  rw [hval]

/-- Delivering a scheduled callback pops it and stores its result. -/
theorem fireTimer_cons (s : ControllerState) (d : Nat) (fd : FormData)
    (rest : List (Nat × FormData)) (h : s.pending = (d, fd) :: rest) :
    fireTimer s =
      { s with
          result := computeResult fd,
          isSubmitting := false,
          pending := rest } := by
  unfold fireTimer
  rw [h]

/-- The computed result is always one of the two fully populated records. -/
theorem computeResult_cases (fd : FormData) :
    computeResult fd =
        { prediction := some Pred.positive, message := positiveMessage } ∨
      computeResult fd =
        { prediction := some Pred.negative, message := negativeMessage } := by
  unfold computeResult
  split
  · exact Or.inl rfl
  · exact Or.inr rfl

/-- `computeResult` in terms of the parsed glucose and bmi values. -/
theorem computeResult_parsed (fd : FormData) (g b : Dec10)
    (hg : jsStrToNumber fd.glucose = JSNum.fin g)
    (hb : jsStrToNumber fd.bmi = JSNum.fin b) :
    computeResult fd =
      if (140 : ℚ) < g.toRat ∨ (30 : ℚ) < b.toRat
      then { prediction := some Pred.positive, message := positiveMessage }
      else { prediction := some Pred.negative, message := negativeMessage } := by
  unfold computeResult
  rw [hg, hb]
  have hcond : (((JSNum.fin g).gtInt 140 || (JSNum.fin b).gtInt 30) = true) ↔
      ((140 : ℚ) < g.toRat ∨ (30 : ℚ) < b.toRat) := by
    rw [Bool.or_eq_true, JSNum.gtInt_fin, JSNum.gtInt_fin]
    norm_cast
  by_cases hc : (140 : ℚ) < g.toRat ∨ (30 : ℚ) < b.toRat
  · rw [if_pos (hcond.mpr hc), if_pos hc]
  · rw [if_neg (fun h => hc (hcond.mp h)), if_neg hc]

/-! ## Claims -/

/-- C1. For every submission whose eight fields all validate as numeric and
whose glucose and bmi parse to finite values `g` and `b`, the result
delivered by the completed submission is the positive record (with the
advisory message) exactly when `g > 140` or `b > 30`, and the negative
record (with the reassuring message) otherwise; the threshold comparison
is strict. -/
theorem prediction_threshold_rule (s : ControllerState) (g b : Dec10)
    (hval : firstInvalidField s.formData = none)
    (hpend : s.pending = [])
    (hg : jsStrToNumber s.formData.glucose = JSNum.fin g)
    (hb : jsStrToNumber s.formData.bmi = JSNum.fin b) :
    (fireTimer (handlePredict s).1).result =
      if (140 : ℚ) < g.toRat ∨ (30 : ℚ) < b.toRat
      then { prediction := some Pred.positive, message := positiveMessage }
      else { prediction := some Pred.negative, message := negativeMessage } := by
  rw [handlePredict_of_valid s hval]
  rw [fireTimer_cons _ simulatedDelayMs s.formData [] (by simp [hpend])]
  exact computeResult_parsed s.formData g b hg hb

/-- C1 witness: the boundary submission glucose = 140, bmi = 20 completes
with the negative prediction and the reassuring message. -/
theorem prediction_threshold_rule_witness :
    (fireTimer (handlePredict (formState fdBoundary)).1).result =
      { prediction := some Pred.negative, message := negativeMessage } := by
  have h := prediction_threshold_rule (formState fdBoundary) ⟨140, 0⟩ ⟨20, 0⟩
    (by decide) rfl (by decide) (by decide)
  rw [h]
  norm_num [Dec10.toRat]

/-- C2. The computed result is a function of the glucose and bmi strings
alone: two valid submissions agreeing on those two fields produce the same
prediction and message, whatever the other six fields hold. -/
theorem prediction_depends_only_on_glucose_bmi (fd1 fd2 : FormData)
    (hv1 : firstInvalidField fd1 = none)
    (hv2 : firstInvalidField fd2 = none)
    (hg : fd1.glucose = fd2.glucose) (hb : fd1.bmi = fd2.bmi) :
    computeResult fd1 = computeResult fd2 := by
  unfold computeResult
  rw [hg, hb]

/-- C2 witness: two valid submissions differing in all six other fields
compute the same result. -/
theorem prediction_depends_only_on_glucose_bmi_witness :
    computeResult fdA = computeResult fdB ∧ fdA ≠ fdB :=
  ⟨prediction_depends_only_on_glucose_bmi fdA fdB (by decide) (by decide)
      rfl rfl,
    by decide⟩

/-- C3. Validation scans the eight fields in the fixed source order; it
succeeds exactly when every field is non-empty and parses to a number, and
on failure it fires one `Validation Error` toast for the first failing
field of the scan (every earlier field being valid), whose message embeds
the de-camel-cased field key. -/
theorem validation_order_and_message (fd : FormData) :
    requiredFields =
      [Field.pregnancies, Field.glucose, Field.bloodPressure,
        Field.skinThickness, Field.insulin, Field.bmi,
        Field.diabetesPedigree, Field.age] ∧
    (validateForm fd = none ↔
      ∀ f ∈ requiredFields,
        getField fd f ≠ "" ∧ jsStrToNumber (getField fd f) ≠ JSNum.nan) ∧
    ∀ f, firstInvalidField fd = some f →
      validateForm fd = some (validationToast f) ∧
      (getField fd f = "" ∨ jsStrToNumber (getField fd f) = JSNum.nan) ∧
      (∃ l₁ l₂, requiredFields = l₁ ++ f :: l₂ ∧
        ∀ g ∈ l₁,
          getField fd g ≠ "" ∧ jsStrToNumber (getField fd g) ≠ JSNum.nan) ∧
      (validationToast f).title = "Validation Error" ∧
      (validationToast f).description =
        "Please enter a valid number for " ++ deCamelCase (fieldKey f) := by
  refine ⟨rfl, ?_, ?_⟩
  · rw [show validateForm fd = (firstInvalidField fd).map validationToast
        from rfl, Option.map_eq_none']
    exact firstInvalidField_eq_none fd
  · intro f h
    have h' : requiredFields.find? (fieldInvalid fd) = some f := h
    obtain ⟨hpf, l₁, l₂, heq, hall⟩ :=
      find?_eq_some_split (fieldInvalid fd) requiredFields f h'
    refine ⟨?_, ?_, ⟨l₁, l₂, heq, ?_⟩, rfl, rfl⟩
    · rw [show validateForm fd = (firstInvalidField fd).map validationToast
          from rfl, h]
      rfl
    · simpa [fieldInvalid] using hpf
    · intro g hg
      exact (fieldInvalid_eq_false fd g).mp (hall g hg)

/-- C3 witness: submitting with a non-numeric glucose raises the toast for
glucose, with the de-camel-cased message. -/
theorem validation_order_and_message_witness :
    validateForm fdBadGlucose = some (validationToast Field.glucose) ∧
    (validationToast Field.glucose).description =
      "Please enter a valid number for glucose" := by
  obtain ⟨-, -, h3⟩ := validation_order_and_message fdBadGlucose
  obtain ⟨h31, -, -, -, h35⟩ := h3 Field.glucose (by decide)
  exact ⟨h31, by rw [h35]; decide⟩

/-- C4. Submitting with any field empty aborts: the state (form data,
result, and `isSubmitting`) is returned unchanged and a validation toast
is fired for some invalid field — for the field itself when it is the only
invalid one. -/
theorem empty_field_aborts_unchanged (s : ControllerState) (f : Field)
    (hf : getField s.formData f = "") :
    (handlePredict s).1 = s ∧
    (∃ g, (handlePredict s).2 = some (validationToast g) ∧
      fieldInvalid s.formData g = true) ∧
    ((∀ g ∈ requiredFields, fieldInvalid s.formData g = true → g = f) →
      (handlePredict s).2 = some (validationToast f)) := by
  have hmem : f ∈ requiredFields := by cases f <;> decide
  have hsome : ∃ g, firstInvalidField s.formData = some g := by
    rcases hcase : firstInvalidField s.formData with _ | g
    · exfalso
      have hok := (firstInvalidField_eq_none s.formData).mp hcase f hmem
      exact hok.1 hf
    · exact ⟨g, rfl⟩
  obtain ⟨g, hg⟩ := hsome
  have hg' : requiredFields.find? (fieldInvalid s.formData) = some g := hg
  have hginv : fieldInvalid s.formData g = true := List.find?_some hg'
  have hgmem : g ∈ requiredFields := List.mem_of_find?_eq_some hg'
  rw [handlePredict_of_invalid s g hg]
  refine ⟨rfl, ⟨g, rfl, hginv⟩, ?_⟩
  intro huniq
  rw [huniq g hgmem hginv]

/-- C4 witness: submitting with glucose empty leaves the whole state (in
particular the initial result) unchanged and fires the glucose toast. -/
theorem empty_field_aborts_unchanged_witness :
    (handlePredict (formState fdEmptyGlucose)).1 = formState fdEmptyGlucose ∧
    (handlePredict (formState fdEmptyGlucose)).2 =
      some (validationToast Field.glucose) ∧
    (formState fdEmptyGlucose).result =
      { prediction := none, message := "" } := by
  have h := empty_field_aborts_unchanged (formState fdEmptyGlucose)
    Field.glucose rfl
  exact ⟨h.1, h.2.2 (by decide), rfl⟩

/-- C5 counterexample: the form whose `age` field holds `"Infinity"`
passes validation, yet the parsed value is not finite — validation only
rules out NaN, not the infinities, so validation success does not imply
that every field parses to a finite number. -/
theorem validation_allows_infinity :
    validateForm fdInfinity = none ∧
    getField fdInfinity Field.age = "Infinity" ∧
    jsStrToNumber (getField fdInfinity Field.age) = JSNum.inf false ∧
    (jsStrToNumber (getField fdInfinity Field.age)).isFinite = false := by
  decide

/-- C5 (amended). Whenever validation succeeds, every one of the eight
field strings is non-empty and parses to a non-NaN value (finite or
infinite). -/
theorem validation_implies_non_nan (fd : FormData)
    (h : validateForm fd = none) :
    ∀ f ∈ requiredFields,
      getField fd f ≠ "" ∧ jsStrToNumber (getField fd f) ≠ JSNum.nan := by
  have h' : (firstInvalidField fd).map validationToast = none := h
  exact (firstInvalidField_eq_none fd).mp (Option.map_eq_none'.mp h')

/-- C5 witness: the all-numeric form passes validation and its glucose
field indeed parses non-NaN. -/
theorem validation_implies_non_nan_witness :
    validateForm fdAllOnes = none ∧
    (getField fdAllOnes Field.glucose ≠ "" ∧
      jsStrToNumber (getField fdAllOnes Field.glucose) ≠ JSNum.nan) :=
  ⟨by decide,
    validation_implies_non_nan fdAllOnes (by decide) Field.glucose (by decide)⟩

/-- C6. A submission passing validation immediately clears the result to
`{null, ""}` and sets `isSubmitting`, scheduling the computation after the
fixed 1500 ms delay; delivering that delayed callback populates the result
with a non-null prediction and a non-empty message and re-enables
submission. -/
theorem submission_lifecycle (s : ControllerState)
    (hval : firstInvalidField s.formData = none)
    (hpend : s.pending = []) :
    (handlePredict s).1.result = { prediction := none, message := "" } ∧
    (handlePredict s).1.isSubmitting = true ∧
    (handlePredict s).1.pending = [(simulatedDelayMs, s.formData)] ∧
    simulatedDelayMs = 1500 ∧
    (fireTimer (handlePredict s).1).result.prediction ≠ none ∧
    (fireTimer (handlePredict s).1).result.message ≠ "" ∧
    (fireTimer (handlePredict s).1).isSubmitting = false := by
  rw [handlePredict_of_valid s hval]
  rw [fireTimer_cons _ simulatedDelayMs s.formData [] (by simp [hpend])]
  refine ⟨rfl, rfl, by simp [hpend], rfl, ?_, ?_, rfl⟩
  · rcases computeResult_cases s.formData with h | h <;> rw [h]
    · exact (by decide : (some Pred.positive : Option Pred) ≠ none)
    · exact (by decide : (some Pred.negative : Option Pred) ≠ none)
  · rcases computeResult_cases s.formData with h | h <;> rw [h]
    · exact (by decide : positiveMessage ≠ "")
    · exact (by decide : negativeMessage ≠ "")

/-- C6 witness: a concrete valid submission shows the cleared-then-populated
lifecycle. -/
theorem submission_lifecycle_witness :
    (handlePredict (formState fdA)).1.result =
      { prediction := none, message := "" } ∧
    (handlePredict (formState fdA)).1.isSubmitting = true ∧
    (fireTimer (handlePredict (formState fdA)).1).result.prediction ≠ none ∧
    (fireTimer (handlePredict (formState fdA)).1).isSubmitting = false := by
  have h := submission_lifecycle (formState fdA) (by decide) rfl
  exact ⟨h.1, h.2.1, h.2.2.2.2.1, h.2.2.2.2.2.2⟩

/-- C7. While `isSubmitting` is true the submit control is disabled, so a
submit request changes nothing and schedules nothing; and any outstanding
submission always completes: delivering its callback stores the computed
result (a non-null prediction), re-enables submission, and retires the
timer. -/
theorem no_overlapping_submissions (s : ControllerState)
    (h : s.isSubmitting = true) :
    submit s = (s, none) ∧
    ∀ d fd rest, s.pending = (d, fd) :: rest →
      fireTimer s =
        { s with
            result := computeResult fd,
            isSubmitting := false,
            pending := rest } ∧
      (fireTimer s).result.prediction ≠ none := by
  constructor
  · simp [submit, h]
  · intro d fd rest hp
    refine ⟨fireTimer_cons s d fd rest hp, ?_⟩
    rw [fireTimer_cons s d fd rest hp]
    rcases computeResult_cases fd with hc | hc <;> rw [hc]
    · exact (by decide : (some Pred.positive : Option Pred) ≠ none)
    · exact (by decide : (some Pred.negative : Option Pred) ≠ none)

/-- C7 witness: in a concrete mid-submission state, submit is a no-op and
the outstanding timer completes with a populated result. -/
theorem no_overlapping_submissions_witness :
    submit pendingState = (pendingState, none) ∧
    (fireTimer pendingState).result.prediction ≠ none := by
  have h := no_overlapping_submissions pendingState rfl
  exact ⟨h.1, (h.2 simulatedDelayMs fdA [] rfl).2⟩

/-- C8. Validation never consults the slider metadata: any form whose
eight fields are non-empty and numeric passes validation, whatever
`fieldRanges` says. -/
theorem ranges_not_consulted (fd : FormData)
    (h : ∀ f ∈ requiredFields,
      getField fd f ≠ "" ∧ jsStrToNumber (getField fd f) ≠ JSNum.nan) :
    validateForm fd = none := by
  rw [show validateForm fd = (firstInvalidField fd).map validationToast
      from rfl, Option.map_eq_none']
  exact (firstInvalidField_eq_none fd).mpr h

/-- C8 witness: glucose 1000 — far above its slider maximum of 300 —
validates without error. -/
theorem ranges_not_consulted_witness :
    validateForm fdGlucoseOut = none ∧
    jsStrToNumber (getField fdGlucoseOut Field.glucose) =
      JSNum.fin ⟨1000, 0⟩ ∧
    (fieldRanges Field.glucose).max < Dec10.toRat ⟨1000, 0⟩ := by
  refine ⟨ranges_not_consulted fdGlucoseOut (by decide), by decide, ?_⟩
  norm_num [fieldRanges, Dec10.toRat]

/-- C9. A field edit — text input with string `v`, or slider drag with
numeric value `n` (which writes the stringification of `n`) — rewrites
exactly the edited field, leaving the other seven fields, the result, the
submitting flag, and the timer queue untouched; no validation runs. -/
theorem field_edit_frame (s : ControllerState) (f g : Field) (v : String)
    (n : Dec10) (hne : g ≠ f) :
    getField (handleInputChange s f v).formData f = v ∧
    getField (handleInputChange s f v).formData g = getField s.formData g ∧
    (handleInputChange s f v).result = s.result ∧
    (handleInputChange s f v).isSubmitting = s.isSubmitting ∧
    (handleInputChange s f v).pending = s.pending ∧
    handleSliderChange s f n = handleInputChange s f (jsNumToString n) := by
  refine ⟨?_, ?_, rfl, rfl, rfl, rfl⟩
  · cases f <;> rfl
  · cases f <;> cases g <;> first | rfl | exact absurd rfl hne

/-- C9 witness: editing glucose to "7" leaves age unchanged, and a slider
drag of glucose to 26.5 writes the string "26.5". -/
theorem field_edit_frame_witness :
    getField (handleInputChange (formState fdAllOnes) Field.glucose
        "7").formData Field.glucose = "7" ∧
    getField (handleInputChange (formState fdAllOnes) Field.glucose
        "7").formData Field.age =
      getField (formState fdAllOnes).formData Field.age ∧
    handleSliderChange (formState fdAllOnes) Field.glucose ⟨265, 1⟩ =
      handleInputChange (formState fdAllOnes) Field.glucose "26.5" := by
  have h := field_edit_frame (formState fdAllOnes) Field.glucose Field.age
    "7" ⟨265, 1⟩ (by decide)
  refine ⟨h.1, h.2.1, ?_⟩
  rw [h.2.2.2.2.2, show jsNumToString ⟨265, 1⟩ = "26.5" from by decide]

/-- C10. Delivering any outstanding submission callback yields a fully
populated result — one of the two complete records, so a non-null
prediction together with a non-empty message, written in one update. -/
theorem result_fully_populated (s : ControllerState) (d : Nat)
    (fd : FormData) (rest : List (Nat × FormData))
    (h : s.pending = (d, fd) :: rest) :
    ((fireTimer s).result =
        { prediction := some Pred.positive, message := positiveMessage } ∨
      (fireTimer s).result =
        { prediction := some Pred.negative, message := negativeMessage }) ∧
    (fireTimer s).result.prediction ≠ none ∧
    (fireTimer s).result.message ≠ "" := by
  rw [fireTimer_cons s d fd rest h]
  rcases computeResult_cases fd with hc | hc <;> rw [hc]
  · exact ⟨Or.inl rfl,
      (by decide : (some Pred.positive : Option Pred) ≠ none),
      (by decide : positiveMessage ≠ "")⟩
  · exact ⟨Or.inr rfl,
      (by decide : (some Pred.negative : Option Pred) ≠ none),
      (by decide : negativeMessage ≠ "")⟩

/-- C10 witness: the concrete mid-submission state completes with a full
result. -/
theorem result_fully_populated_witness :
    (fireTimer pendingState).result.prediction ≠ none ∧
    (fireTimer pendingState).result.message ≠ "" := by
  have h := result_fully_populated pendingState simulatedDelayMs fdA [] rfl
  exact ⟨h.2.1, h.2.2⟩

end DiabetiCheck
